import Mathlib

/-!
# BeNotified: the BeReal poller (`bereal.go`)

A shallow embedding of `fetchBeRealLatest`, `fetchAsiaEastLatestID` and
`berealMain`.

* A Go `error` is represented by its text (`err.Error()`), `nil` by `none`.
  `fetchBeRealLatest` returns either `(nil, err)` or `(&response, nil)`: the
  two are the branches of `Except`. `fetchAsiaEastLatestID` returns a string
  next to its error, and keeps the pair.
* The network, the JSON decoder, the clock, the process environment and the
  `linebc` package are collaborators of the program: their results are
  inputs of the model.
* The effects of `berealMain` (log lines, sleeps, HTTP requests, broadcast
  calls) are recorded in order in a trace; `log.Fatal` records the line and
  sets the exit code to 1.
* The `for` loop never returns by itself; it is run against a finite list of
  per-iteration environments, one for each iteration that the outside world
  lets happen.
-/

namespace BeNotified

/-- RegionMoment represents a BeReal moment for a specific region. -/
structure RegionMoment where
  ID : String
  TS : Int
  UTC : String
  deriving Repr, DecidableEq

/-- The anonymous struct of the `now` field of the response. -/
structure NowRecord where
  TS : Int
  UTC : String
  deriving Repr, DecidableEq

/-- BeRealResponse represents the response structure from the BeReal API.
The Go map `map[string]RegionMoment` is an association list read with
`List.lookup`. -/
structure BeRealResponse where
  Regions : List (String × RegionMoment)
  Now : NowRecord
  deriving Repr, DecidableEq

/-- What `client.Get` hands back when the transport succeeds: the status code,
the bytes `io.ReadAll(resp.Body)` returns, and the error `io.ReadAll` returns
with them (`none` for `nil`). -/
structure HttpResponse where
  StatusCode : Int
  body : String
  readErr : Option String
  deriving Repr, DecidableEq

/-- The HTTP client: a URL is answered by a transport error or a response. -/
abbrev HttpClient := String → Except String HttpResponse

/-- The decoder `json.Unmarshal(body, &response)`. -/
abbrev Unmarshal := String → Except String BeRealResponse

/-- The constant `http.StatusOK`. -/
def StatusOK : Int := 200

/-- The URL built by `fmt.Sprintf` in `fetchBeRealLatest`. -/
def latestURL (apiKey : String) : String :=
  "https://bereal.devin.rest/v1/moments/latest?api_key=" ++ apiKey

/-- fetchBeRealLatest fetches the latest BeReal moments. -/
def fetchBeRealLatest (unmarshal : Unmarshal) (client : HttpClient) (apiKey : String) :
    Except String BeRealResponse :=
  match client (latestURL apiKey) with
  | .error err => .error ("request failed: " ++ err)
  | .ok resp =>
    if resp.StatusCode ≠ StatusOK then
      .error ("HTTP error " ++ toString resp.StatusCode ++ ": " ++ resp.body)
    else
      match resp.readErr with
      | some err => .error ("failed to read response: " ++ err)
      | none =>
        match unmarshal resp.body with
        | .error err => .error ("failed to parse JSON: " ++ err)
        | .ok response => .ok response

/-- The Go function `fetchAsiaEastLatestID`. It returns the pair
`(string, error)` of the source, the error being `none` for `nil`. -/
def fetchAsiaEastLatestID (unmarshal : Unmarshal) (client : HttpClient) (apiKey : String) :
    String × Option String :=
  match fetchBeRealLatest unmarshal client apiKey with
  | .error err => ("", some err)
  | .ok response =>
    match response.Regions.lookup "asia-east" with
    | none => ("", some "region 'asia-east' not found in response")
    | some regionMoment =>
      if regionMoment.ID = "" then
        ("", some "no moment ID found for region 'asia-east'")
      else
        (regionMoment.ID, none)

/-- An observable effect of `berealMain`. -/
inductive Event where
  | log (line : String)
  | sleep (seconds : Nat)
  | httpGet (url : String)
  | broadcast (text : String)
  deriving Repr, DecidableEq

/-- The state of a run of `berealMain`: the variable `sentID`, the effects so
far, and the exit code once `log.Fatal` has ended the process. -/
structure State where
  sentID : String
  trace : List Event
  exitCode : Option Nat
  deriving Repr, DecidableEq

/-- What the outside world supplies to one iteration of the `for` loop: the
network at the time of the fetch, the text of
`time.Now().Format("2006-01-02")`, and the answer of `linebc.BroadcastText`
to a message (`none` for `nil`). -/
structure PollEnv where
  client : HttpClient
  today : String
  broadcastText : String → Option String

/-- The message built by `fmt.Sprintf("Time to BeReal! (%s)", currentDate)`. -/
def berealMessage (currentDate : String) : String :=
  "Time to BeReal! (" ++ currentDate ++ ")"

/-- One pass through the body of the `for` loop of `berealMain`. -/
def pollIteration (unmarshal : Unmarshal) (apiKey : String) (st : State) (env : PollEnv) :
    State :=
  let tr := st.trace ++ [Event.sleep 5, Event.httpGet (latestURL apiKey)]
  match fetchAsiaEastLatestID unmarshal env.client apiKey with
  | (_, some err) =>
    { st with trace := tr ++ [Event.log ("Error fetching latest ID: " ++ err)] }
  | (currentID, none) =>
    if currentID ≠ st.sentID then
      let tr1 := tr ++
        [Event.log ("New moment detected! Old ID: " ++ st.sentID ++ ", New ID: " ++ currentID)]
      let message := berealMessage env.today
      let tr2 := tr1 ++ [Event.broadcast message]
      match env.broadcastText message with
      | some err => { sentID := currentID, trace := tr2 ++ [Event.log err], exitCode := some 1 }
      | none => { sentID := currentID, trace := tr2, exitCode := st.exitCode }
    else
      { st with trace := tr }

/-- The `for` loop of `berealMain`, run for as many iterations as there are
environments; it stops for good at the iteration in which `log.Fatal` exits. -/
def pollLoop (unmarshal : Unmarshal) (apiKey : String) (st : State) : List PollEnv → State
  | [] => st
  | env :: envs =>
    let st1 := pollIteration unmarshal apiKey st env
    match st1.exitCode with
    | some _ => st1
    | none => pollLoop unmarshal apiKey st1 envs

/-- The Go function `berealMain`. `initFromEnv` is the result of
`linebc.InitFromEnv()`, `getenv` is `os.Getenv`, `client0` is the network at
the time of the first fetch, `envs` the environments of the loop iterations. -/
def berealMain (unmarshal : Unmarshal) (initFromEnv : Option String) (getenv : String → String)
    (client0 : HttpClient) (envs : List PollEnv) : State :=
  match initFromEnv with
  | some err => { sentID := "", trace := [Event.log err], exitCode := some 1 }
  | none =>
    let tr := [Event.log "LINE client initialized."]
    let apiKey := getenv "BEREAL_API_KEY"
    if apiKey = "" then
      { sentID := "",
        trace := tr ++ [Event.log "BEREAL_API_KEY environment variable not set"],
        exitCode := some 1 }
    else
      let tr1 := tr ++ [Event.httpGet (latestURL apiKey)]
      match fetchAsiaEastLatestID unmarshal client0 apiKey with
      | (_, some err) =>
        { sentID := "",
          trace := tr1 ++ [Event.log ("Failed to fetch Asia East latest ID: " ++ err)],
          exitCode := some 1 }
      | (sentID, none) =>
        pollLoop unmarshal apiKey
          { sentID := sentID,
            trace := tr1 ++ [Event.log ("Asia East Latest Moment ID: " ++ sentID)],
            exitCode := none }
          envs

/-- The broadcast calls of a trace, in order. -/
def broadcasts : List Event → List String
  | [] => []
  | Event.broadcast text :: rest => text :: broadcasts rest
  | _ :: rest => broadcasts rest

/-- The number of HTTP requests in a trace. -/
def fetchCount : List Event → Nat
  | [] => 0
  | Event.httpGet _ :: rest => fetchCount rest + 1
  | _ :: rest => fetchCount rest

/-- The number of sleeps in a trace: each loop iteration starts with one. -/
def sleepCount : List Event → Nat
  | [] => 0
  | Event.sleep _ :: rest => sleepCount rest + 1
  | _ :: rest => sleepCount rest

/-! ## Reference functions -/

/-- The four stages of `fetchBeRealLatest` that can fail, in the order in which
the function goes through them. -/
inductive FetchStage where
  | request
  | status
  | read
  | parse
  deriving Repr, DecidableEq

/-- The kind of an error of `fetchBeRealLatest`, read off the fixed text with
which its message starts. -/
def errorKind (text : String) : Option FetchStage :=
  if "request failed: ".data.isPrefixOf text.data then some .request
  else if "HTTP error ".data.isPrefixOf text.data then some .status
  else if "failed to read response: ".data.isPrefixOf text.data then some .read
  else if "failed to parse JSON: ".data.isPrefixOf text.data then some .parse
  else none

/-- The first stage that fails for the given inputs, `none` when none does. -/
def firstFailingStage (unmarshal : Unmarshal) (client : HttpClient) (apiKey : String) :
    Option FetchStage :=
  match client (latestURL apiKey) with
  | .error _ => some .request
  | .ok resp =>
    if resp.StatusCode ≠ 200 then some .status
    else if resp.readErr ≠ none then some .read
    else
      match unmarshal resp.body with
      | .error _ => some .parse
      | .ok _ => none


/-- The messages due for a run of polls: `polls` lists, for each iteration, the
identifier fetched and the date of that iteration; a message is due at each
iteration whose identifier differs from the one before it (`prev` before the
first). -/
def changeMessages (prev : String) : List (String × String) → List String
  | [] => []
  | (id, date) :: rest =>
    if id ≠ prev then berealMessage date :: changeMessages id rest
    else changeMessages id rest

/-- The number of positions of `ids` whose identifier differs from the one
before it (`prev` before the first). -/
def changeCount (prev : String) : List String → Nat
  | [] => 0
  | id :: rest => if id ≠ prev then changeCount id rest + 1 else changeCount id rest

/-- The last identifier of `ids`, and `prev` when there is none. -/
def lastID (prev : String) : List String → String
  | [] => prev
  | id :: rest => lastID id rest

/-- Every iteration fetches its identifier of `ids` without error, and every
broadcast that is due (the identifier differs from the one before it)
succeeds. -/
def PollsSucceed (unmarshal : Unmarshal) (apiKey : String) :
    String → List PollEnv → List String → Prop
  | _, [], [] => True
  | prev, env :: envs, id :: ids =>
    fetchAsiaEastLatestID unmarshal env.client apiKey = (id, none) ∧
    (id ≠ prev → env.broadcastText (berealMessage env.today) = none) ∧
    PollsSucceed unmarshal apiKey id envs ids
  | _, _, _ => False

/-- The identifier of the most recent fetch without error among the iterations
`envs`, and `prev` when none of them succeeded. -/
def lastFetched (unmarshal : Unmarshal) (apiKey : String) : String → List PollEnv → String
  | prev, [] => prev
  | prev, env :: envs =>
    match fetchAsiaEastLatestID unmarshal env.client apiKey with
    | (_, some _) => lastFetched unmarshal apiKey prev envs
    | (id, none) => lastFetched unmarshal apiKey id envs

/-! ## Sample inputs -/

/-- A stand-in decoder for the examples: an empty body does not parse, any
other body is read as the identifier of region `asia-east`. -/
def sampleUnmarshal : Unmarshal := fun body =>
  if body = "" then .error "unexpected end of JSON input"
  else .ok { Regions := [("asia-east", { ID := body, TS := 0, UTC := "" })],
             Now := { TS := 0, UTC := "" } }

/-- A network that answers every request with status 200 and the given body. -/
def sampleClient (body : String) : HttpClient :=
  fun _ => .ok { StatusCode := 200, body := body, readErr := none }

/-- A network that answers every request with the given status and body. -/
def statusClient (code : Int) (body : String) : HttpClient :=
  fun _ => .ok { StatusCode := code, body := body, readErr := none }

/-- A network on which every request fails. -/
def downClient : HttpClient := fun _ => .error "dial tcp: connection refused"

/-- An iteration on 1 November 2026 that fetches `body` and whose broadcast
succeeds. -/
def sampleEnv (body : String) : PollEnv :=
  { client := sampleClient body, today := "2026-11-01", broadcastText := fun _ => none }

/-- An iteration on 1 November 2026 that fetches `body` and whose broadcast
fails. -/
def failingBroadcastEnv (body : String) : PollEnv :=
  { client := sampleClient body, today := "2026-11-01",
    broadcastText := fun _ => some "line: broadcast failed" }

/-- An iteration during which the network is down. -/
def downEnv : PollEnv :=
  { client := downClient, today := "2026-11-01", broadcastText := fun _ => none }

/-- An initial state of the loop with tracked identifier `s`. -/
def sampleState (s : String) : State := { sentID := s, trace := [], exitCode := none }

/-- A snapshot with three regions; "asia-east" is not the first. -/
def sampleResponse : BeRealResponse :=
  { Regions := [("us-central", { ID := "u7", TS := 1793558000, UTC := "2026-11-01T16:33:20Z" }),
                ("asia-east", { ID := "m1", TS := 1793523600, UTC := "2026-11-01T07:00:00Z" }),
                ("europe-west", { ID := "", TS := 0, UTC := "" })],
    Now := { TS := 1793560000, UTC := "2026-11-01T17:06:40Z" } }

/-- A snapshot whose "asia-east" record has an empty identifier. -/
def emptyIDResponse : BeRealResponse :=
  { Regions := [("asia-east", { ID := "", TS := 0, UTC := "" }),
                ("us-central", { ID := "u7", TS := 1793558000, UTC := "2026-11-01T16:33:20Z" })],
    Now := { TS := 1793560000, UTC := "2026-11-01T17:06:40Z" } }

/-! ## Lemmas on traces -/

theorem broadcasts_append (xs ys : List Event) :
    broadcasts (xs ++ ys) = broadcasts xs ++ broadcasts ys := by
  induction xs with
  | nil => rfl
  | cons x xs ih => cases x <;> simp [broadcasts, ih]

theorem fetchCount_append (xs ys : List Event) :
    fetchCount (xs ++ ys) = fetchCount xs + fetchCount ys := by
  induction xs with
  | nil => simp [fetchCount]
  | cons x xs ih =>
    cases x <;> simp [fetchCount, ih]
    omega

theorem sleepCount_append (xs ys : List Event) :
    sleepCount (xs ++ ys) = sleepCount xs + sleepCount ys := by
  induction xs with
  | nil => simp [sleepCount]
  | cons x xs ih =>
    cases x <;> simp [sleepCount, ih]
    omega

/-! ## The extractor -/

/-- When `fetchAsiaEastLatestID` returns no error, the identifier it returns is
not empty. -/
theorem fetchAsiaEastLatestID_ok_nonempty (unmarshal : Unmarshal) (client : HttpClient)
    (apiKey id : String) (h : fetchAsiaEastLatestID unmarshal client apiKey = (id, none)) :
    id ≠ "" := by
  unfold fetchAsiaEastLatestID at h
  split at h
  · simp at h
  · split at h
    · simp at h
    · split at h
      · simp at h
      · rename_i hne
        simp at h
        exact h ▸ hne

/-- Claim C1. For every snapshot that `fetchBeRealLatest` returns, if its region
mapping has the key "asia-east" with a record whose identifier is not empty,
`fetchAsiaEastLatestID` returns exactly that identifier and a nil error, whatever
the other regions, the timestamps and the `now` record are. -/
theorem fetchAsiaEastLatestID_returns_identifier (unmarshal : Unmarshal) (client : HttpClient)
    (apiKey : String) (response : BeRealResponse) (regionMoment : RegionMoment)
    (hfetch : fetchBeRealLatest unmarshal client apiKey = .ok response)
    (hkey : response.Regions.lookup "asia-east" = some regionMoment)
    (hid : regionMoment.ID ≠ "") :
    fetchAsiaEastLatestID unmarshal client apiKey = (regionMoment.ID, none) := by
  simp [fetchAsiaEastLatestID, hfetch, hkey, hid]

/-- Witness of C1: a snapshot with three regions, fetched with status 200. -/
theorem fetchAsiaEastLatestID_returns_identifier_witness :
    fetchAsiaEastLatestID (fun _ => .ok sampleResponse) (sampleClient "body") "key"
      = ("m1", none) :=
  fetchAsiaEastLatestID_returns_identifier (fun _ => .ok sampleResponse) (sampleClient "body")
    "key" sampleResponse { ID := "m1", TS := 1793523600, UTC := "2026-11-01T07:00:00Z" }
    rfl rfl (by decide)

/-- Claim C2. For every snapshot that `fetchBeRealLatest` returns,
`fetchAsiaEastLatestID` returns an error exactly when the key "asia-east" is
absent from the region mapping or present with an empty identifier; an absent
key gives the error "region 'asia-east' not found in response", an empty
identifier gives "no moment ID found for region 'asia-east'", the two texts
differ, and in both cases the identifier returned is the empty string. -/
theorem fetchAsiaEastLatestID_fails_iff (unmarshal : Unmarshal) (client : HttpClient)
    (apiKey : String) (response : BeRealResponse)
    (hfetch : fetchBeRealLatest unmarshal client apiKey = .ok response) :
    ((fetchAsiaEastLatestID unmarshal client apiKey).2 ≠ none ↔
      (response.Regions.lookup "asia-east" = none ∨
        ∃ regionMoment, response.Regions.lookup "asia-east" = some regionMoment ∧
          regionMoment.ID = "")) ∧
    (response.Regions.lookup "asia-east" = none →
      fetchAsiaEastLatestID unmarshal client apiKey
        = ("", some "region 'asia-east' not found in response")) ∧
    (∀ regionMoment, response.Regions.lookup "asia-east" = some regionMoment →
      regionMoment.ID = "" →
      fetchAsiaEastLatestID unmarshal client apiKey
        = ("", some "no moment ID found for region 'asia-east'")) ∧
    "region 'asia-east' not found in response" ≠ "no moment ID found for region 'asia-east'" := by
  refine ⟨?_, ?_, ?_, by decide⟩
  · cases hk : response.Regions.lookup "asia-east" with
    | none => simp [fetchAsiaEastLatestID, hfetch, hk]
    | some rm =>
      by_cases hid : rm.ID = "" <;> simp [fetchAsiaEastLatestID, hfetch, hk, hid]
  · intro hk
    simp [fetchAsiaEastLatestID, hfetch, hk]
  · intro rm hk hid
    simp [fetchAsiaEastLatestID, hfetch, hk, hid]

/-- Witness of C2: a fetched snapshot whose "asia-east" record has an empty
identifier yields the second error and the empty string. -/
theorem fetchAsiaEastLatestID_fails_iff_witness :
    fetchAsiaEastLatestID (fun _ => .ok emptyIDResponse) (sampleClient "body") "key"
      = ("", some "no moment ID found for region 'asia-east'") :=
  (fetchAsiaEastLatestID_fails_iff (fun _ => .ok emptyIDResponse) (sampleClient "body") "key"
    emptyIDResponse rfl).2.2.1 { ID := "", TS := 0, UTC := "" } rfl rfl

/-! ## The fetcher -/

theorem errorKind_request (err : String) :
    errorKind ("request failed: " ++ err) = some .request := by
  simp [errorKind, List.isPrefixOf]

theorem errorKind_status (rest : String) :
    errorKind ("HTTP error " ++ rest) = some .status := by
  simp [errorKind, List.isPrefixOf]

theorem errorKind_read (err : String) :
    errorKind ("failed to read response: " ++ err) = some .read := by
  simp [errorKind, List.isPrefixOf]

theorem errorKind_parse (err : String) :
    errorKind ("failed to parse JSON: " ++ err) = some .parse := by
  simp [errorKind, List.isPrefixOf]

/-- The text of the error for a status other than 200. -/
theorem fetchBeRealLatest_status_text (unmarshal : Unmarshal) (client : HttpClient)
    (apiKey : String) (resp : HttpResponse) (hget : client (latestURL apiKey) = .ok resp)
    (hcode : resp.StatusCode ≠ 200) :
    fetchBeRealLatest unmarshal client apiKey
      = .error ("HTTP error " ++ toString resp.StatusCode ++ ": " ++ resp.body) := by
  simp [fetchBeRealLatest, hget, StatusOK, hcode]

/-- Claim C7. With the transport result, the status, the result of reading the
body and the result of decoding it as inputs: `fetchBeRealLatest` returns a
snapshot exactly when the request succeeds, the status is 200, the body is read
without error and the body decodes, and the snapshot is the decoded one;
otherwise it returns an error and no snapshot, the kind of the error (the fixed
text its message starts with) is that of the first stage that fails, and for
every status other than 200 the message is "HTTP error ", the status in decimal,
": " and the body as read, so that it contains both the decimal status and the
body text. -/
theorem fetchBeRealLatest_stages (unmarshal : Unmarshal) (client : HttpClient)
    (apiKey : String) :
    (∀ response, fetchBeRealLatest unmarshal client apiKey = .ok response ↔
      ∃ resp, client (latestURL apiKey) = .ok resp ∧ resp.StatusCode = 200 ∧
        resp.readErr = none ∧ unmarshal resp.body = .ok response) ∧
    ((∃ response, fetchBeRealLatest unmarshal client apiKey = .ok response) ↔
      firstFailingStage unmarshal client apiKey = none) ∧
    (∀ text, fetchBeRealLatest unmarshal client apiKey = .error text →
      ∃ stage, firstFailingStage unmarshal client apiKey = some stage ∧
        errorKind text = some stage) ∧
    (∀ err, client (latestURL apiKey) = .error err →
      fetchBeRealLatest unmarshal client apiKey = .error ("request failed: " ++ err)) ∧
    (∀ resp, client (latestURL apiKey) = .ok resp → resp.StatusCode ≠ 200 →
      fetchBeRealLatest unmarshal client apiKey
        = .error ("HTTP error " ++ toString resp.StatusCode ++ ": " ++ resp.body) ∧
      (toString resp.StatusCode).data <:+:
        ("HTTP error " ++ toString resp.StatusCode ++ ": " ++ resp.body).data ∧
      resp.body.data <:+:
        ("HTTP error " ++ toString resp.StatusCode ++ ": " ++ resp.body).data) ∧
    (∀ resp err, client (latestURL apiKey) = .ok resp → resp.StatusCode = 200 →
      resp.readErr = some err →
      fetchBeRealLatest unmarshal client apiKey
        = .error ("failed to read response: " ++ err)) ∧
    (∀ resp err, client (latestURL apiKey) = .ok resp → resp.StatusCode = 200 →
      resp.readErr = none → unmarshal resp.body = .error err →
      fetchBeRealLatest unmarshal client apiKey = .error ("failed to parse JSON: " ++ err)) := by
  refine ⟨?_, ?_, ?_, ?_, ?_, ?_, ?_⟩
  · intro response
    cases hget : client (latestURL apiKey) with
    | error err => simp [fetchBeRealLatest, hget]
    | ok resp =>
      by_cases hcode : resp.StatusCode = 200
      · cases hread : resp.readErr with
        | some err => simp [fetchBeRealLatest, hget, StatusOK, hcode, hread]
        | none =>
          cases hparse : unmarshal resp.body with
          | error err => simp [fetchBeRealLatest, hget, StatusOK, hcode, hread, hparse]
          | ok r => simp [fetchBeRealLatest, hget, StatusOK, hcode, hread, hparse]
      · simp [fetchBeRealLatest, hget, StatusOK, hcode]
  · cases hget : client (latestURL apiKey) with
    | error err => simp [fetchBeRealLatest, firstFailingStage, hget]
    | ok resp =>
      by_cases hcode : resp.StatusCode = 200
      · cases hread : resp.readErr with
        | some err => simp [fetchBeRealLatest, firstFailingStage, hget, StatusOK, hcode, hread]
        | none =>
          cases hparse : unmarshal resp.body with
          | error err =>
            simp [fetchBeRealLatest, firstFailingStage, hget, StatusOK, hcode, hread, hparse]
          | ok r =>
            simp [fetchBeRealLatest, firstFailingStage, hget, StatusOK, hcode, hread, hparse]
      · simp [fetchBeRealLatest, firstFailingStage, hget, StatusOK, hcode]
  · intro text htext
    cases hget : client (latestURL apiKey) with
    | error err =>
      simp [fetchBeRealLatest, hget] at htext
      subst htext
      exact ⟨.request, by simp [firstFailingStage, hget], errorKind_request err⟩
    | ok resp =>
      by_cases hcode : resp.StatusCode = 200
      · cases hread : resp.readErr with
        | some err =>
          simp [fetchBeRealLatest, hget, StatusOK, hcode, hread] at htext
          subst htext
          exact ⟨.read, by simp [firstFailingStage, hget, hcode, hread], errorKind_read err⟩
        | none =>
          cases hparse : unmarshal resp.body with
          | error err =>
            simp [fetchBeRealLatest, hget, StatusOK, hcode, hread, hparse] at htext
            subst htext
            exact ⟨.parse, by simp [firstFailingStage, hget, hcode, hread, hparse],
              errorKind_parse err⟩
          | ok r => simp [fetchBeRealLatest, hget, StatusOK, hcode, hread, hparse] at htext
      · rw [fetchBeRealLatest_status_text unmarshal client apiKey resp hget hcode] at htext
        injection htext with htext
        subst htext
        refine ⟨.status, by simp [firstFailingStage, hget, hcode], ?_⟩
        rw [String.append_assoc, String.append_assoc]
        exact errorKind_status _
  · intro err hget
    simp [fetchBeRealLatest, hget]
  · intro resp hget hcode
    refine ⟨fetchBeRealLatest_status_text unmarshal client apiKey resp hget hcode, ?_, ?_⟩
    · exact ⟨"HTTP error ".data, (": " ++ resp.body).data, by simp⟩
    · exact ⟨("HTTP error " ++ toString resp.StatusCode ++ ": ").data, [], by simp⟩
  · intro resp err hget hcode hread
    simp [fetchBeRealLatest, hget, StatusOK, hcode, hread]
  · intro resp err hget hcode hread hparse
    simp [fetchBeRealLatest, hget, StatusOK, hcode, hread, hparse]

/-- Witness of C7: a 404 answer with body "not found" gives the error
"HTTP error 404: not found", of kind `status`. -/
theorem fetchBeRealLatest_stages_witness :
    fetchBeRealLatest sampleUnmarshal (statusClient 404 "not found") "key"
      = .error "HTTP error 404: not found" ∧
    errorKind "HTTP error 404: not found" = some .status :=
  ⟨((fetchBeRealLatest_stages sampleUnmarshal (statusClient 404 "not found") "key").2.2.2.2.1
      { StatusCode := 404, body := "not found", readErr := none } rfl (by decide)).1,
   by decide⟩

/-! ## One iteration of the loop -/

theorem pollIteration_error (unmarshal : Unmarshal) (apiKey : String) (st : State)
    (env : PollEnv) (id err : String)
    (hfetch : fetchAsiaEastLatestID unmarshal env.client apiKey = (id, some err)) :
    pollIteration unmarshal apiKey st env =
      { st with trace := st.trace ++ [Event.sleep 5, Event.httpGet (latestURL apiKey)] ++
                  [Event.log ("Error fetching latest ID: " ++ err)] } := by
  simp [pollIteration, hfetch]

theorem pollIteration_same (unmarshal : Unmarshal) (apiKey : String) (st : State)
    (env : PollEnv)
    (hfetch : fetchAsiaEastLatestID unmarshal env.client apiKey = (st.sentID, none)) :
    pollIteration unmarshal apiKey st env =
      { st with trace := st.trace ++ [Event.sleep 5, Event.httpGet (latestURL apiKey)] } := by
  simp [pollIteration, hfetch]

theorem pollIteration_changed (unmarshal : Unmarshal) (apiKey : String) (st : State)
    (env : PollEnv) (currentID : String)
    (hfetch : fetchAsiaEastLatestID unmarshal env.client apiKey = (currentID, none))
    (hne : currentID ≠ st.sentID)
    (hsend : env.broadcastText (berealMessage env.today) = none) :
    pollIteration unmarshal apiKey st env =
      { sentID := currentID,
        trace := st.trace ++ [Event.sleep 5, Event.httpGet (latestURL apiKey)] ++
          [Event.log ("New moment detected! Old ID: " ++ st.sentID ++ ", New ID: " ++ currentID)]
          ++ [Event.broadcast (berealMessage env.today)],
        exitCode := st.exitCode } := by
  simp [pollIteration, hfetch, hne, hsend]

theorem pollIteration_changed_fatal (unmarshal : Unmarshal) (apiKey : String) (st : State)
    (env : PollEnv) (currentID err : String)
    (hfetch : fetchAsiaEastLatestID unmarshal env.client apiKey = (currentID, none))
    (hne : currentID ≠ st.sentID)
    (hsend : env.broadcastText (berealMessage env.today) = some err) :
    pollIteration unmarshal apiKey st env =
      { sentID := currentID,
        trace := st.trace ++ [Event.sleep 5, Event.httpGet (latestURL apiKey)] ++
          [Event.log ("New moment detected! Old ID: " ++ st.sentID ++ ", New ID: " ++ currentID)]
          ++ [Event.broadcast (berealMessage env.today)] ++ [Event.log err],
        exitCode := some 1 } := by
  simp [pollIteration, hfetch, hne, hsend]

theorem pollLoop_cons_running (unmarshal : Unmarshal) (apiKey : String) (st : State)
    (env : PollEnv) (envs : List PollEnv)
    (hrun : (pollIteration unmarshal apiKey st env).exitCode = none) :
    pollLoop unmarshal apiKey st (env :: envs)
      = pollLoop unmarshal apiKey (pollIteration unmarshal apiKey st env) envs := by
  simp [pollLoop, hrun]

theorem pollLoop_cons_exited (unmarshal : Unmarshal) (apiKey : String) (st : State)
    (env : PollEnv) (envs : List PollEnv) (code : Nat)
    (hexit : (pollIteration unmarshal apiKey st env).exitCode = some code) :
    pollLoop unmarshal apiKey st (env :: envs) = pollIteration unmarshal apiKey st env := by
  simp [pollLoop, hexit]

/-- Claim C4. For every tracked state, an iteration that fetches without error
an identifier equal to the tracked one issues no broadcast, leaves the tracked
state and the exit status as they are, and only records its sleep and its
request; hence a run of any number of such iterations issues no broadcast and
ends with the same tracked state. -/
theorem unchanged_polls_no_broadcast (unmarshal : Unmarshal) (apiKey : String) (st : State)
    (envs : List PollEnv)
    (hsame : ∀ env ∈ envs, fetchAsiaEastLatestID unmarshal env.client apiKey = (st.sentID, none)) :
    (∀ env ∈ envs,
      pollIteration unmarshal apiKey st env =
        { st with trace := st.trace ++ [Event.sleep 5, Event.httpGet (latestURL apiKey)] } ∧
      broadcasts (pollIteration unmarshal apiKey st env).trace = broadcasts st.trace) ∧
    (pollLoop unmarshal apiKey st envs).sentID = st.sentID ∧
    broadcasts (pollLoop unmarshal apiKey st envs).trace = broadcasts st.trace ∧
    (pollLoop unmarshal apiKey st envs).exitCode = st.exitCode := by
  constructor
  · intro env henv
    have h := pollIteration_same unmarshal apiKey st env (hsame env henv)
    refine ⟨h, ?_⟩
    rw [h]
    simp [broadcasts_append, broadcasts]
  · induction envs generalizing st with
    | nil => simp [pollLoop]
    | cons env envs ih =>
      have h := pollIteration_same unmarshal apiKey st env (hsame env (by simp))
      cases hexit : st.exitCode with
      | some code =>
        have hex : (pollIteration unmarshal apiKey st env).exitCode = some code := by
          rw [h]; exact hexit
        rw [pollLoop_cons_exited unmarshal apiKey st env envs code hex, h]
        simp [broadcasts_append, broadcasts, hexit]
      | none =>
        have hex : (pollIteration unmarshal apiKey st env).exitCode = none := by
          rw [h]; exact hexit
        rw [pollLoop_cons_running unmarshal apiKey st env envs hex, h]
        have := ih { st with trace := st.trace ++ [Event.sleep 5, Event.httpGet (latestURL apiKey)] }
          (fun e he => hsame e (by simp [he]))
        simpa [broadcasts_append, broadcasts, hexit] using this

/-- Witness of C4: tracked state "m1" and two polls that both fetch "m1". -/
theorem unchanged_polls_no_broadcast_witness :
    (pollLoop sampleUnmarshal "key" (sampleState "m1") [sampleEnv "m1", sampleEnv "m1"]).sentID
      = "m1" ∧
    broadcasts
      (pollLoop sampleUnmarshal "key" (sampleState "m1") [sampleEnv "m1", sampleEnv "m1"]).trace
      = [] :=
  have h := unchanged_polls_no_broadcast sampleUnmarshal "key" (sampleState "m1")
    [sampleEnv "m1", sampleEnv "m1"] (by
      intro env henv
      simp at henv
      subst henv
      rfl)
  ⟨h.2.1, h.2.2.1⟩

/-- Claim C5. For every tracked state of a running process and every iteration
whose fetch returns an error (whatever its cause), the iteration does not end
the process, issues no broadcast, leaves the tracked state unchanged, only
records its sleep, its request and the log line of the error, and the loop
goes on to the next iteration from that state. -/
theorem poll_error_keeps_state (unmarshal : Unmarshal) (apiKey : String) (st : State)
    (env : PollEnv) (id err : String) (hrun : st.exitCode = none)
    (hfetch : fetchAsiaEastLatestID unmarshal env.client apiKey = (id, some err)) :
    (pollIteration unmarshal apiKey st env).exitCode = none ∧
    (pollIteration unmarshal apiKey st env).sentID = st.sentID ∧
    broadcasts (pollIteration unmarshal apiKey st env).trace = broadcasts st.trace ∧
    (pollIteration unmarshal apiKey st env).trace =
      st.trace ++ [Event.sleep 5, Event.httpGet (latestURL apiKey),
        Event.log ("Error fetching latest ID: " ++ err)] ∧
    ∀ envs, pollLoop unmarshal apiKey st (env :: envs) =
      pollLoop unmarshal apiKey
        { st with trace := st.trace ++ [Event.sleep 5, Event.httpGet (latestURL apiKey),
                    Event.log ("Error fetching latest ID: " ++ err)] } envs := by
  have h := pollIteration_error unmarshal apiKey st env id err hfetch
  have hex : (pollIteration unmarshal apiKey st env).exitCode = none := by rw [h]; exact hrun
  refine ⟨hex, by rw [h], by rw [h]; simp [broadcasts_append, broadcasts], by rw [h]; simp, ?_⟩
  intro envs
  rw [pollLoop_cons_running unmarshal apiKey st env envs hex, h]
  simp

/-- Witness of C5: tracked state "m1", the network is down for one iteration. -/
theorem poll_error_keeps_state_witness :
    (pollIteration sampleUnmarshal "key" (sampleState "m1") downEnv).exitCode = none ∧
    (pollIteration sampleUnmarshal "key" (sampleState "m1") downEnv).sentID = "m1" :=
  have h := poll_error_keeps_state sampleUnmarshal "key" (sampleState "m1") downEnv ""
    "request failed: dial tcp: connection refused" rfl rfl
  ⟨h.1, h.2.1⟩

/-- Claim C6. For every iteration that fetches an identifier different from the
tracked one and whose broadcast call returns an error, the process exits in
that iteration with code 1: the iteration has made exactly one broadcast call,
the loop runs no later iteration whatever the later environments are (no
further sleep, request or broadcast), and the tracked state at exit is the new
identifier. -/
theorem broadcast_failure_is_fatal (unmarshal : Unmarshal) (apiKey : String) (st : State)
    (env : PollEnv) (currentID err : String)
    (hfetch : fetchAsiaEastLatestID unmarshal env.client apiKey = (currentID, none))
    (hne : currentID ≠ st.sentID)
    (hsend : env.broadcastText (berealMessage env.today) = some err) :
    (pollIteration unmarshal apiKey st env).exitCode = some 1 ∧
    broadcasts (pollIteration unmarshal apiKey st env).trace
      = broadcasts st.trace ++ [berealMessage env.today] ∧
    (pollIteration unmarshal apiKey st env).sentID = currentID ∧
    ∀ envs, pollLoop unmarshal apiKey st (env :: envs) = pollIteration unmarshal apiKey st env := by
  have h := pollIteration_changed_fatal unmarshal apiKey st env currentID err hfetch hne hsend
  have hex : (pollIteration unmarshal apiKey st env).exitCode = some 1 := by rw [h]
  refine ⟨hex, by rw [h]; simp [broadcasts_append, broadcasts], by rw [h], ?_⟩
  intro envs
  exact pollLoop_cons_exited unmarshal apiKey st env envs 1 hex

/-- Witness of C6: tracked state "m1", a poll fetches "m2", the broadcast fails,
and a further poll that would fetch "m3" never runs. -/
theorem broadcast_failure_is_fatal_witness :
    pollLoop sampleUnmarshal "key" (sampleState "m1") [failingBroadcastEnv "m2", sampleEnv "m3"]
      = { sentID := "m2",
          trace := [Event.sleep 5, Event.httpGet (latestURL "key"),
            Event.log "New moment detected! Old ID: m1, New ID: m2",
            Event.broadcast "Time to BeReal! (2026-11-01)",
            Event.log "line: broadcast failed"],
          exitCode := some 1 } :=
  ((broadcast_failure_is_fatal sampleUnmarshal "key" (sampleState "m1")
    (failingBroadcastEnv "m2") "m2" "line: broadcast failed" rfl (by decide) rfl).2.2.2
    [sampleEnv "m3"]).trans rfl

/-- Claim C9. For every tracked state, every identifier fetched without error
that differs from it and every text `today` of the current date, the iteration
sets the tracked state to the fetched identifier and makes exactly one
broadcast call, with the text "Time to BeReal! (" followed by `today` followed
by ")": the text is a function of the date alone. -/
theorem changed_poll_broadcasts_date (unmarshal : Unmarshal) (apiKey : String) (st : State)
    (env : PollEnv) (currentID : String)
    (hfetch : fetchAsiaEastLatestID unmarshal env.client apiKey = (currentID, none))
    (hne : currentID ≠ st.sentID) :
    (pollIteration unmarshal apiKey st env).sentID = currentID ∧
    broadcasts (pollIteration unmarshal apiKey st env).trace
      = broadcasts st.trace ++ ["Time to BeReal! (" ++ env.today ++ ")"] := by
  cases hsend : env.broadcastText (berealMessage env.today) with
  | none =>
    rw [pollIteration_changed unmarshal apiKey st env currentID hfetch hne hsend]
    simp [broadcasts_append, broadcasts, berealMessage]
  | some err =>
    rw [pollIteration_changed_fatal unmarshal apiKey st env currentID err hfetch hne hsend]
    simp [broadcasts_append, broadcasts, berealMessage]

/-- Witness of C9: tracked state "m1", a poll on 1 November 2026 fetches "m2". -/
theorem changed_poll_broadcasts_date_witness :
    (pollIteration sampleUnmarshal "key" (sampleState "m1") (sampleEnv "m2")).sentID = "m2" ∧
    broadcasts (pollIteration sampleUnmarshal "key" (sampleState "m1") (sampleEnv "m2")).trace
      = ["Time to BeReal! (2026-11-01)"] :=
  changed_poll_broadcasts_date sampleUnmarshal "key" (sampleState "m1") (sampleEnv "m2") "m2"
    rfl (by decide)

/-! ## Runs of the loop -/

theorem pollLoop_changes (unmarshal : Unmarshal) (apiKey : String) :
    ∀ (envs : List PollEnv) (ids : List String) (st : State), st.exitCode = none →
      PollsSucceed unmarshal apiKey st.sentID envs ids →
      (pollLoop unmarshal apiKey st envs).exitCode = none ∧
      (pollLoop unmarshal apiKey st envs).sentID = lastID st.sentID ids ∧
      broadcasts (pollLoop unmarshal apiKey st envs).trace
        = broadcasts st.trace ++
          changeMessages st.sentID (ids.zip (envs.map PollEnv.today)) ∧
      (broadcasts (pollLoop unmarshal apiKey st envs).trace).length
        = (broadcasts st.trace).length + changeCount st.sentID ids := by
  intro envs
  induction envs with
  | nil =>
    intro ids st hrun hok
    cases ids with
    | nil => simp [pollLoop, hrun, changeMessages, changeCount, lastID]
    | cons id ids => simp [PollsSucceed] at hok
  | cons env envs ih =>
    intro ids st hrun hok
    cases ids with
    | nil => simp [PollsSucceed] at hok
    | cons id ids =>
      obtain ⟨hfetch, hsend, hrest⟩ := hok
      by_cases hne : id = st.sentID
      · subst hne
        have h := pollIteration_same unmarshal apiKey st env hfetch
        have hex : (pollIteration unmarshal apiKey st env).exitCode = none := by
          rw [h]; exact hrun
        rw [pollLoop_cons_running unmarshal apiKey st env envs hex, h]
        obtain ⟨h1, h2, h3, h4⟩ := ih ids
          { st with trace := st.trace ++ [Event.sleep 5, Event.httpGet (latestURL apiKey)] }
          hrun hrest
        refine ⟨h1, h2, ?_, ?_⟩
        · rw [h3]
          simp only [List.map_cons, List.zip_cons_cons, changeMessages, broadcasts_append,
            broadcasts, ne_eq, not_true_eq_false, if_false, List.append_nil]
          rfl
        · rw [h4]
          simp only [changeCount, broadcasts_append, broadcasts, ne_eq, not_true_eq_false,
            if_false, List.append_nil]
      · have h := pollIteration_changed unmarshal apiKey st env id hfetch hne (hsend hne)
        have hex : (pollIteration unmarshal apiKey st env).exitCode = none := by
          rw [h]; exact hrun
        rw [pollLoop_cons_running unmarshal apiKey st env envs hex, h]
        obtain ⟨h1, h2, h3, h4⟩ := ih ids
          { sentID := id,
            trace := st.trace ++ [Event.sleep 5, Event.httpGet (latestURL apiKey)] ++
              [Event.log ("New moment detected! Old ID: " ++ st.sentID ++ ", New ID: " ++ id)]
              ++ [Event.broadcast (berealMessage env.today)],
            exitCode := st.exitCode } hrun hrest
        refine ⟨h1, h2, ?_, ?_⟩
        · rw [h3]
          simp only [List.map_cons, List.zip_cons_cons, changeMessages, broadcasts_append,
            broadcasts, ne_eq, hne, not_false_eq_true, if_true, List.append_nil,
            List.append_assoc, List.singleton_append]
          rfl
        · rw [h4]
          simp only [changeCount, broadcasts_append, broadcasts, ne_eq, hne, not_false_eq_true,
            if_true, List.append_nil, List.length_append, List.length_singleton]
          omega

/-- Claim C3. For every initial tracked identifier and every finite run of
iterations that fetch the identifiers `ids` without error, every due broadcast
succeeding, the loop makes exactly one broadcast call at each position whose
identifier differs from the one before it (the initial one before the first),
with the date of that iteration, and none elsewhere: their number is the number
of such positions; the process is still running and the tracked state is the
last identifier of `ids` (the initial one when `ids` is empty). -/
theorem pollLoop_broadcasts_on_change (unmarshal : Unmarshal) (apiKey : String) (st : State)
    (envs : List PollEnv) (ids : List String) (hrun : st.exitCode = none)
    (hok : PollsSucceed unmarshal apiKey st.sentID envs ids) :
    broadcasts (pollLoop unmarshal apiKey st envs).trace
      = broadcasts st.trace ++ changeMessages st.sentID (ids.zip (envs.map PollEnv.today)) ∧
    (broadcasts (pollLoop unmarshal apiKey st envs).trace).length
      = (broadcasts st.trace).length + changeCount st.sentID ids ∧
    (pollLoop unmarshal apiKey st envs).sentID = lastID st.sentID ids ∧
    (pollLoop unmarshal apiKey st envs).exitCode = none := by
  obtain ⟨h1, h2, h3, h4⟩ := pollLoop_changes unmarshal apiKey envs ids st hrun hok
  exact ⟨h3, h4, h2, h1⟩

/-- Witness of C3: initial identifier "m1", then polls fetching "m1", "m2",
"m2": exactly one broadcast, and the tracked state ends at "m2". -/
theorem pollLoop_broadcasts_on_change_witness :
    broadcasts (pollLoop sampleUnmarshal "key" (sampleState "m1")
      [sampleEnv "m1", sampleEnv "m2", sampleEnv "m2"]).trace = ["Time to BeReal! (2026-11-01)"] ∧
    (broadcasts (pollLoop sampleUnmarshal "key" (sampleState "m1")
      [sampleEnv "m1", sampleEnv "m2", sampleEnv "m2"]).trace).length = 1 ∧
    (pollLoop sampleUnmarshal "key" (sampleState "m1")
      [sampleEnv "m1", sampleEnv "m2", sampleEnv "m2"]).sentID = "m2" :=
  have h := pollLoop_broadcasts_on_change sampleUnmarshal "key" (sampleState "m1")
    [sampleEnv "m1", sampleEnv "m2", sampleEnv "m2"] ["m1", "m2", "m2"] rfl
    ⟨rfl, fun _ => rfl, rfl, fun _ => rfl, rfl, fun _ => rfl, trivial⟩
  ⟨h.1.trans (by decide), h.2.1.trans (by decide), h.2.2.1.trans (by decide)⟩

/-- The run A, A, B, B, C of the specification, for any three identifiers with
A ≠ B and B ≠ C: the first poll sets the tracked identifier, the four that
follow make exactly two broadcast calls. -/
theorem pollLoop_AABBC (unmarshal : Unmarshal) (apiKey : String) (A B C : String)
    (e2 e3 e4 e5 : PollEnv) (trace : List Event) (hAB : B ≠ A) (hBC : C ≠ B)
    (h2 : fetchAsiaEastLatestID unmarshal e2.client apiKey = (A, none))
    (h3 : fetchAsiaEastLatestID unmarshal e3.client apiKey = (B, none))
    (h4 : fetchAsiaEastLatestID unmarshal e4.client apiKey = (B, none))
    (h5 : fetchAsiaEastLatestID unmarshal e5.client apiKey = (C, none))
    (hs3 : e3.broadcastText (berealMessage e3.today) = none)
    (hs5 : e5.broadcastText (berealMessage e5.today) = none) :
    broadcasts (pollLoop unmarshal apiKey { sentID := A, trace := trace, exitCode := none }
        [e2, e3, e4, e5]).trace
      = broadcasts trace ++ [berealMessage e3.today, berealMessage e5.today] := by
  have h := (pollLoop_changes unmarshal apiKey [e2, e3, e4, e5] [A, B, B, C]
    { sentID := A, trace := trace, exitCode := none } rfl
    ⟨h2, fun h => absurd rfl h, h3, fun _ => hs3, h4, fun h => absurd rfl h, h5, fun _ => hs5,
      trivial⟩).2.2.1
  rw [h]
  simp only [List.map_cons, List.map_nil, List.zip_cons_cons, List.zip_nil_right, changeMessages,
    ne_eq, hAB, hBC, not_true_eq_false, not_false_eq_true, if_true, if_false]

theorem pollIteration_sentID_ok (unmarshal : Unmarshal) (apiKey : String) (st : State)
    (env : PollEnv) (id : String)
    (hfetch : fetchAsiaEastLatestID unmarshal env.client apiKey = (id, none)) :
    (pollIteration unmarshal apiKey st env).sentID = id := by
  by_cases hne : id = st.sentID
  · subst hne
    rw [pollIteration_same unmarshal apiKey st env hfetch]
  · cases hsend : env.broadcastText (berealMessage env.today) with
    | none => rw [pollIteration_changed unmarshal apiKey st env id hfetch hne hsend]
    | some err => rw [pollIteration_changed_fatal unmarshal apiKey st env id err hfetch hne hsend]

theorem pollIteration_sentID_error (unmarshal : Unmarshal) (apiKey : String) (st : State)
    (env : PollEnv) (id err : String)
    (hfetch : fetchAsiaEastLatestID unmarshal env.client apiKey = (id, some err)) :
    (pollIteration unmarshal apiKey st env).sentID = st.sentID := by
  rw [pollIteration_error unmarshal apiKey st env id err hfetch]

/-- While the process runs, the tracked identifier is the one of the most recent
fetch without error. -/
theorem pollLoop_sentID_lastFetched (unmarshal : Unmarshal) (apiKey : String) :
    ∀ (envs : List PollEnv) (st : State),
      (pollLoop unmarshal apiKey st envs).exitCode = none →
      (pollLoop unmarshal apiKey st envs).sentID = lastFetched unmarshal apiKey st.sentID envs := by
  intro envs
  induction envs with
  | nil => intro st _; simp [pollLoop, lastFetched]
  | cons env envs ih =>
    intro st hrun
    cases hex : (pollIteration unmarshal apiKey st env).exitCode with
    | some code =>
      rw [pollLoop_cons_exited unmarshal apiKey st env envs code hex, hex] at hrun
      simp at hrun
    | none =>
      rw [pollLoop_cons_running unmarshal apiKey st env envs hex] at hrun ⊢
      rw [ih _ hrun]
      rcases hf : fetchAsiaEastLatestID unmarshal env.client apiKey with ⟨id, _ | err⟩
      · rw [pollIteration_sentID_ok unmarshal apiKey st env id hf]
        simp [lastFetched, hf]
      · rw [pollIteration_sentID_error unmarshal apiKey st env id err hf]
        simp [lastFetched, hf]

/-- A tracked identifier that is not empty stays so. -/
theorem pollLoop_sentID_nonempty (unmarshal : Unmarshal) (apiKey : String) :
    ∀ (envs : List PollEnv) (st : State), st.sentID ≠ "" →
      (pollLoop unmarshal apiKey st envs).sentID ≠ "" := by
  intro envs
  induction envs with
  | nil => intro st h; simpa [pollLoop] using h
  | cons env envs ih =>
    intro st h
    have hstep : (pollIteration unmarshal apiKey st env).sentID ≠ "" := by
      rcases hf : fetchAsiaEastLatestID unmarshal env.client apiKey with ⟨id, _ | err⟩
      · rw [pollIteration_sentID_ok unmarshal apiKey st env id hf]
        exact fetchAsiaEastLatestID_ok_nonempty unmarshal env.client apiKey id hf
      · rw [pollIteration_sentID_error unmarshal apiKey st env id err hf]
        exact h
    cases hex : (pollIteration unmarshal apiKey st env).exitCode with
    | some code =>
      rw [pollLoop_cons_exited unmarshal apiKey st env envs code hex]
      exact hstep
    | none =>
      rw [pollLoop_cons_running unmarshal apiKey st env envs hex]
      exact ih _ hstep

/-! ## The whole of `berealMain` -/

/-- Claim C8. If the initialization of the notifier fails, or the API key is the
empty string, or the first fetch returns an error, `berealMain` exits with code
1 before the loop: the run is the same whatever iterations the environment
offers (none of them runs: no sleep is recorded), no broadcast call is made,
and at most one request is sent; when the notifier fails or the key is empty,
no request is sent at all. -/
theorem berealMain_startup_failure (unmarshal : Unmarshal) (initFromEnv : Option String)
    (getenv : String → String) (client0 : HttpClient) (envs : List PollEnv)
    (hfail : initFromEnv ≠ none ∨ getenv "BEREAL_API_KEY" = "" ∨
      (fetchAsiaEastLatestID unmarshal client0 (getenv "BEREAL_API_KEY")).2 ≠ none) :
    (berealMain unmarshal initFromEnv getenv client0 envs).exitCode = some 1 ∧
    berealMain unmarshal initFromEnv getenv client0 envs
      = berealMain unmarshal initFromEnv getenv client0 [] ∧
    sleepCount (berealMain unmarshal initFromEnv getenv client0 envs).trace = 0 ∧
    broadcasts (berealMain unmarshal initFromEnv getenv client0 envs).trace = [] ∧
    fetchCount (berealMain unmarshal initFromEnv getenv client0 envs).trace ≤ 1 ∧
    (initFromEnv ≠ none ∨ getenv "BEREAL_API_KEY" = "" →
      fetchCount (berealMain unmarshal initFromEnv getenv client0 envs).trace = 0) := by
  cases hinit : initFromEnv with
  | some err => simp [berealMain, sleepCount, broadcasts, fetchCount]
  | none =>
    by_cases hkey : getenv "BEREAL_API_KEY" = ""
    · simp [berealMain, hkey, sleepCount, broadcasts, fetchCount]
    · rcases hf : fetchAsiaEastLatestID unmarshal client0 (getenv "BEREAL_API_KEY")
        with ⟨id, _ | err⟩
      · rw [hinit, hf] at hfail
        simp [hkey] at hfail
      · simp [berealMain, hkey, hf, sleepCount, broadcasts, fetchCount]

/-- Witness of C8: the notifier is initialized, the key is set, and the network
is down at the first fetch; two iterations are on offer and none runs. -/
theorem berealMain_startup_failure_witness :
    berealMain sampleUnmarshal none (fun _ => "key") downClient [sampleEnv "m1", sampleEnv "m2"]
      = { sentID := "",
          trace := [Event.log "LINE client initialized.", Event.httpGet (latestURL "key"),
            Event.log ("Failed to fetch Asia East latest ID: " ++
              "request failed: dial tcp: connection refused")],
          exitCode := some 1 } :=
  (berealMain_startup_failure sampleUnmarshal none (fun _ => "key") downClient
    [sampleEnv "m1", sampleEnv "m2"] (Or.inr (Or.inr (by decide)))).2.1.trans rfl

/-- Claim C10. Whenever `berealMain` is still running after the iterations
`envs` (so at the start of every iteration of the loop), the start-up has
succeeded with a first fetch returning some identifier `s0`, and the tracked
state is not empty and is the identifier of the most recent fetch without
error: the one of the last such iteration of `envs`, and `s0` when every
iteration failed, for every interleaving of successful and failed polls. -/
theorem berealMain_tracked_invariant (unmarshal : Unmarshal) (initFromEnv : Option String)
    (getenv : String → String) (client0 : HttpClient) (envs : List PollEnv)
    (hrun : (berealMain unmarshal initFromEnv getenv client0 envs).exitCode = none) :
    ∃ s0, fetchAsiaEastLatestID unmarshal client0 (getenv "BEREAL_API_KEY") = (s0, none) ∧
      (berealMain unmarshal initFromEnv getenv client0 envs).sentID
        = lastFetched unmarshal (getenv "BEREAL_API_KEY") s0 envs ∧
      (berealMain unmarshal initFromEnv getenv client0 envs).sentID ≠ "" := by
  cases hinit : initFromEnv with
  | some err => simp [berealMain, hinit] at hrun
  | none =>
    by_cases hkey : getenv "BEREAL_API_KEY" = ""
    · simp [berealMain, hinit, hkey] at hrun
    · rcases hf : fetchAsiaEastLatestID unmarshal client0 (getenv "BEREAL_API_KEY")
        with ⟨s0, _ | err⟩
      · have hmain : berealMain unmarshal none getenv client0 envs =
            pollLoop unmarshal (getenv "BEREAL_API_KEY")
              { sentID := s0,
                trace := [Event.log "LINE client initialized."] ++
                  [Event.httpGet (latestURL (getenv "BEREAL_API_KEY"))] ++
                  [Event.log ("Asia East Latest Moment ID: " ++ s0)],
                exitCode := none } envs := by
          simp [berealMain, hkey, hf]
        rw [hinit] at hrun
        rw [hmain] at hrun ⊢
        refine ⟨s0, rfl, ?_, ?_⟩
        · exact pollLoop_sentID_lastFetched unmarshal (getenv "BEREAL_API_KEY") envs _ hrun
        · exact pollLoop_sentID_nonempty unmarshal (getenv "BEREAL_API_KEY") envs _
            (fetchAsiaEastLatestID_ok_nonempty unmarshal client0 _ s0 hf)
      · simp [berealMain, hinit, hkey, hf] at hrun

/-- Witness of C10: first fetch "m1", then a poll fetching "m1", a failed poll,
a poll fetching "m2" and a failed poll: the tracked state is "m2". -/
theorem berealMain_tracked_invariant_witness :
    ∃ s0, fetchAsiaEastLatestID sampleUnmarshal (sampleClient "m1") "key" = (s0, none) ∧
      (berealMain sampleUnmarshal none (fun _ => "key") (sampleClient "m1")
        [sampleEnv "m1", downEnv, sampleEnv "m2", downEnv]).sentID
        = lastFetched sampleUnmarshal "key" s0 [sampleEnv "m1", downEnv, sampleEnv "m2", downEnv] ∧
      (berealMain sampleUnmarshal none (fun _ => "key") (sampleClient "m1")
        [sampleEnv "m1", downEnv, sampleEnv "m2", downEnv]).sentID ≠ "" :=
  berealMain_tracked_invariant sampleUnmarshal none (fun _ => "key") (sampleClient "m1")
    [sampleEnv "m1", downEnv, sampleEnv "m2", downEnv] rfl

end BeNotified
